import Mathlib

/-!
Verification of the openclawd-llm-guard mediation layer.

Shallow embedding of the plugin's JavaScript sources:
  * `plugin/src/llm-guard-client.js`  — resilient client with health cache
  * `plugin/src/safe-read.js`         — protected file-read tool
  * `plugin/src/safe-web-fetch.js`    — protected URL-fetch tool (BLOCK mode)
  * `plugin/src/safe-browser.js`      — protected browser tool (flag handling)

JavaScript strings are modelled as Lean `String`; where kernel evaluation
matters, character-list helpers (structural recursion) replace the library
string functions so that concrete witnesses reduce.  JS numbers that the
claims touch are modelled as `Nat` (offsets/limits, which the schema
declares as numbers and the tools index lists with) or `Rat` (risk scores).
Asynchronous I/O is modelled by passing the outcome of each awaited call
(file read, health probe, scan) as an explicit argument, and the functions
additionally report which client operations the control flow consulted.
-/

namespace LLMGuard

/-! ### Character-list string helpers (kernel-evaluable) -/

/-- `pat` is a prefix of `s` (on character lists). -/
def prefixOfL : List Char → List Char → Bool
  | [], _ => true
  | _ :: _, [] => false
  | p :: ps, c :: cs => p == c && prefixOfL ps cs

/-- `pat` occurs as a contiguous substring of `s` (models JS regex
substring match / `String.includes`). -/
def containsL (s pat : List Char) : Bool :=
  match s with
  | [] => prefixOfL pat []
  | _ :: cs => prefixOfL pat s || containsL cs pat

/-- `pat` is a suffix of `s` (models a `$`-anchored regex). -/
def endsWithL (s pat : List Char) : Bool :=
  prefixOfL pat.reverse s.reverse

/-- Substring test on `String` (via the character lists). -/
def containsStr (s pat : String) : Bool :=
  containsL s.data pat.data

/-- JS `content.split('\n')`: split a character list at every newline. -/
def splitNl : List Char → List (List Char)
  | [] => [[]]
  | c :: cs =>
    if c = '\n' then [] :: splitNl cs
    else
      match splitNl cs with
      | [] => [[c]]
      | h :: t => (c :: h) :: t

/-- JS `lines.join('\n')`: interleave newlines between the pieces. -/
def joinNl : List (List Char) → List Char
  | [] => []
  | [l] => l
  | l :: ls => l ++ '\n' :: joinNl ls

/-! ### Scan verdicts (boundary shape of `scan/input`, §6 of the spec,
consumed by `llm-guard-client.js::scanInput`) -/

/-- The verdict object returned by the scan service:
`{sanitized_content, is_valid, risk_score, threats_detected}`. -/
structure ScanResult where
  sanitized_content : String
  is_valid : Bool
  risk_score : Rat
  threats_detected : List String
deriving DecidableEq, Repr

/-- Outcome of an awaited `llmGuard.scanInput(...)` call: either the parsed
verdict, or the thrown error's message (timeout abort, transport failure,
or the `LLM Guard returned <status>` error for a non-ok response). -/
inductive ScanOutcome where
  | ok (r : ScanResult)
  | err (msg : String)
deriving DecidableEq, Repr

/-! ### `safe-read.js` -/

/-- `safe-read.js::isTrustedPath` (lines 10–23): the fixed
`TRUSTED_PATTERNS` list tested against the resolved path.  The five
`/...\.md$/i` patterns are case-insensitive suffix matches; the two
`/\.openclaw\/...\//` patterns are case-sensitive substring matches.
`resolve(filePath)` is modelled as the identity (paths are taken as
already absolute and normalized). -/
def isTrustedPath (normalized : String) : Bool :=
  let l := normalized.data.map Char.toLower
  endsWithL l "identity.md".data ||
  endsWithL l "soul.md".data ||
  endsWithL l "user.md".data ||
  endsWithL l "tools.md".data ||
  endsWithL l "agents.md".data ||
  containsL normalized.data ".openclaw/workspace/".data ||
  containsL normalized.data ".openclaw/memory/".data

/-- `safe-read.js` lines 45–51: offset/limit slicing applied after a
successful read.  JS semantics kept exactly: the block runs only when
`offset` or `limit` is present; `start = offset || 0` (so an absent or
zero offset is 0); `end = limit ? start + limit : lines.length` (so an
absent or zero limit means "to the end of the file");
`lines.slice(start, end)` is `take (end - start) ∘ drop start` for the
non-negative indices the tool schema admits. -/
def sliceContent (content : String) (offset limit : Option Nat) : String :=
  if offset.isSome || limit.isSome then
    let lines := splitNl content.data
    let start := offset.getD 0
    let stop :=
      match limit with
      | some l => if l ≠ 0 then start + l else lines.length
      | none => lines.length
    ⟨joinNl ((lines.drop start).take (stop - start))⟩
  else content

/-- The security metadata block attached by `safe-read.js` results.
Fields absent from a given branch are `none`. -/
structure ReadSecurity where
  scanned : Bool
  is_valid : Option Bool
  risk_score : Option Rat
  threats_detected : Option (List String)
  trusted_path : Option Bool
deriving DecidableEq, Repr

/-- The object returned by `safe-read.js::execute`.  Fields the branch
does not set are `none`. -/
structure ReadResult where
  success : Bool
  content : Option String
  path : String
  error : Option String
  warning : Option String
  security : Option ReadSecurity
deriving DecidableEq, Repr

/-- Outcomes of the awaited calls inside one `safe_read` execution:
the `readFile` result, the `llmGuard.isHealthy()` answer, and the
`llmGuard.scanInput(...)` outcome. -/
structure ReadEnv where
  fileContent : Except String String
  healthy : Bool
  scan : ScanOutcome
deriving Repr

/-- Which client operations the execution actually awaited. -/
structure ClientCalls where
  isHealthyCalled : Bool
  scanInputCalled : Bool
deriving DecidableEq, Repr

/-- `safe-read.js::execute` (lines 35–131), with the awaited I/O outcomes
supplied by `env`.  Returns the result object together with the record of
which client operations were consulted. -/
def safeReadExecute (fallbackOnError : Bool) (path : String)
    (offset limit : Option Nat) (env : ReadEnv) : ReadResult × ClientCalls :=
  match env.fileContent with
  | .error msg =>
    ({ success := false, content := none, path := path,
       error := some ("Failed to read file: " ++ msg),
       warning := none, security := none },
     { isHealthyCalled := false, scanInputCalled := false })
  | .ok raw =>
    let content := sliceContent raw offset limit
    if isTrustedPath path then
      let sec : ReadSecurity :=
        { scanned := false, is_valid := none, risk_score := none,
          threats_detected := none, trusted_path := some true }
      ({ success := true, content := some content, path := path,
         error := none, warning := none, security := some sec },
       { isHealthyCalled := false, scanInputCalled := false })
    else if !env.healthy then
      if fallbackOnError then
        ({ success := true, content := some content, path := path,
           error := none,
           warning := some "LLM Guard service unavailable - content not scanned",
           security := none },
         { isHealthyCalled := true, scanInputCalled := false })
      else
        ({ success := false, content := none, path := path,
           error := some "LLM Guard service unavailable and fallback disabled",
           warning := none, security := none },
         { isHealthyCalled := true, scanInputCalled := false })
    else
      match env.scan with
      | .ok r =>
        let sec : ReadSecurity :=
          { scanned := true, is_valid := some r.is_valid,
            risk_score := some r.risk_score,
            threats_detected := some r.threats_detected, trusted_path := none }
        ({ success := true, content := some r.sanitized_content, path := path,
           error := none, warning := none, security := some sec },
         { isHealthyCalled := true, scanInputCalled := true })
      | .err msg =>
        if fallbackOnError then
          ({ success := true, content := some content, path := path,
             error := none,
             warning := some ("LLM Guard scan failed: " ++ msg),
             security := none },
           { isHealthyCalled := true, scanInputCalled := true })
        else
          ({ success := false, content := none, path := path,
             error := some ("LLM Guard scan failed: " ++ msg),
             warning := none, security := none },
           { isHealthyCalled := true, scanInputCalled := true })

/-! ### `llm-guard-client.js` — health cache -/

/-- `this.healthCache` of `LLMGuardClient`: `{ healthy, timestamp }` with
`healthy` either `null` or a boolean.  Timestamps are `Date.now()` values,
modelled as integers (milliseconds). -/
structure HealthCache where
  healthy : Option Bool
  timestamp : Int
deriving DecidableEq, Repr

/-- The cache installed by the constructor (line 11):
`{ healthy: null, timestamp: 0 }`. -/
def initialCache : HealthCache :=
  { healthy := none, timestamp := 0 }

/-- The constructor's TTL (line 12): `healthCacheTTL = 30000` ms. -/
def healthCacheTTL : Int := 30000

/-- Outcome of the awaited `fetch(serviceUrl/health)` probe: either a
response (carrying `response.ok`) or a thrown exception (timeout abort,
connection refused, ...). -/
inductive ProbeOutcome where
  | response (ok : Bool)
  | failure
deriving DecidableEq, Repr

/-- The boolean `isHealthy` derives from one probe: `response.ok` on a
response, `false` when the probe threw (the `catch` branch). -/
def probeResult : ProbeOutcome → Bool
  | .response ok => ok
  | .failure => false

/-- `LLMGuardClient.isHealthy` (lines 18–41): return the cached value when
`healthy !== null` and `now - timestamp < TTL`; otherwise run the probe,
write the cache unconditionally and return the probe's result. -/
def isHealthy (c : HealthCache) (now : Int) (probe : ProbeOutcome) :
    Bool × HealthCache :=
  if c.healthy.isSome && decide (now - c.timestamp < healthCacheTTL) then
    (c.healthy.getD false, c)
  else
    let healthy := probeResult probe
    (healthy, { healthy := some healthy, timestamp := now })

/-! ### `safe-web-fetch.js` -/

/-- The `security` metadata block attached by `safe-web-fetch.js`. -/
structure WebSecurity where
  scanned : Bool
  blocked : Option Bool
  is_valid : Option Bool
  risk_score : Option Rat
  threats_detected : Option (List String)
  warning : Option String
deriving DecidableEq, Repr

/-- The JSON payload parsed from the original `web_fetch` tool's result
(the fields `safe-web-fetch.js` reads or writes; other fields ride along
unchanged under the spread and are not modelled). -/
structure FetchPayload where
  url : String
  text : Option String
  error : Option String
  blocked : Option Bool
  security : Option WebSecurity
deriving DecidableEq, Repr

/-- JS truthiness of `parsed.text`: `undefined`, `null` and `""` are
falsy. -/
def jsTruthyText : Option String → Bool
  | none => false
  | some s => s ≠ ""

/-- JS truthiness of `parsed.error` (a string field when present). -/
def jsTruthyErr : Option String → Bool
  | none => false
  | some s => s ≠ ""

/-- What `JSON.parse(originalResult.content[0].text)` produced: either a
parse failure or the payload. -/
inductive ParseOutcome where
  | unparseable
  | parsed (p : FetchPayload)
deriving Repr

/-- Result of `safe-web-fetch.js::execute`: either the original result
returned as-is (parse failure, upstream error or missing text), or a JSON
payload serialized back into the tool result. -/
inductive FetchToolResult where
  | passthrough
  | payload (p : FetchPayload)
deriving DecidableEq, Repr

/-- `safe-web-fetch.js::execute` (lines 71–135), with the outcome of each
awaited call supplied as an argument: the parsed original result, the
`isHealthy()` answer and the `scanInput(textToScan, parsed.url)` outcome.
(`stripSecurityWrapper` only shapes the text handed to the scanner; the
scan outcome is given directly, so the stripped text does not appear in
the returned value and is not modelled.) -/
def safeWebFetchExecute (fallbackOnError : Bool) (original : ParseOutcome)
    (healthy : Bool) (scan : ScanOutcome) : FetchToolResult :=
  match original with
  | .unparseable => .passthrough
  | .parsed p =>
    if jsTruthyErr p.error || !jsTruthyText p.text then .passthrough
    else if !healthy then
      if fallbackOnError then
        let sec : WebSecurity :=
          { scanned := false, blocked := none, is_valid := none,
            risk_score := none, threats_detected := none,
            warning := some "LLM Guard unavailable" }
        .payload { p with security := some sec }
      else
        .payload { p with error := some "LLM Guard unavailable", text := none }
    else
      match scan with
      | .ok r =>
        if !r.is_valid then
          let sec : WebSecurity :=
            { scanned := true, blocked := some true, is_valid := some false,
              risk_score := some r.risk_score,
              threats_detected := some r.threats_detected, warning := none }
          .payload { p with text := none, blocked := some true,
                            error := some "Content blocked: prompt injection detected",
                            security := some sec }
        else
          let sec : WebSecurity :=
            { scanned := true, blocked := some false, is_valid := some true,
              risk_score := some r.risk_score,
              threats_detected := some [], warning := none }
          .payload { p with blocked := some false, security := some sec }
      | .err msg =>
        if fallbackOnError then
          let sec : WebSecurity :=
            { scanned := false, blocked := none, is_valid := none,
              risk_score := none, threats_detected := none,
              warning := some msg }
          .payload { p with security := some sec }
        else
          .payload { p with error := some msg, text := none }

/-! ### Configuration flag handling (all three tools) -/

/-- A JavaScript value as far as the `fallbackOnError` configuration field
is concerned: the strict comparison `!== false` distinguishes the boolean
`false` from every other value. -/
inductive JSValue where
  | undefined
  | null
  | bool (b : Bool)
  | num (q : Rat)
  | str (s : String)
deriving DecidableEq, Repr

/-- `config?.fallbackOnError`: an absent config object or an absent field
reads as `undefined`. -/
def configFallbackField (config : Option (List (String × JSValue))) : JSValue :=
  match config with
  | none => JSValue.undefined
  | some fields =>
    match fields.lookup "fallbackOnError" with
    | none => JSValue.undefined
    | some v => v

/-- `safe-read.js` line 28: `config?.fallbackOnError !== false`. -/
def safeReadFallbackFlag (config : Option (List (String × JSValue))) : Bool :=
  configFallbackField config != JSValue.bool false

/-- `safe-web-fetch.js` line 64: `config?.fallbackOnError !== false`. -/
def safeWebFetchFallbackFlag (config : Option (List (String × JSValue))) : Bool :=
  configFallbackField config != JSValue.bool false

/-- `safe-browser.js` line 24: `config?.fallbackOnError !== false`. -/
def safeBrowserFallbackFlag (config : Option (List (String × JSValue))) : Bool :=
  configFallbackField config != JSValue.bool false

/-! ### Verdict aggregation (scan service, not in the JS sources) -/

/-- One scanner's contribution to a verdict (spec §3 `PartialVerdict`):
`{ scannerName, passed, score, sanitizedText }`. -/
structure SubVerdict where
  scannerName : String
  passed : Bool
  score : Rat
  sanitizedText : Option String
deriving DecidableEq, Repr

/-- Modelled from the spec: the Python scan service's verdict aggregator
is not part of the JavaScript sources; §4.2 of the spec defines it as
`isValid = all passed`; `threatsDetected` = names of failing scanners in
registration order; `riskScore = max(scores) if any failed else 0`;
`sanitizedContent` = fold over the scanners in registration order,
replacing the running text by a scanner's `sanitizedText` when present. -/
def aggregate (requestText : String) (subs : List SubVerdict) : ScanResult :=
  { is_valid := subs.all (fun s => s.passed)
    threats_detected := (subs.filter (fun s => !s.passed)).map (fun s => s.scannerName)
    risk_score :=
      if subs.all (fun s => s.passed) then 0
      else (subs.map (fun s => s.score)).foldl max 0
    sanitized_content :=
      subs.foldl (fun acc s =>
        match s.sanitizedText with
        | some t => t
        | none => acc) requestText }

/-! ### Claim-side predicates -/

/-- The first line of a string (the text before the first newline). -/
def firstLine (s : String) : String :=
  ⟨(splitNl s.data).headD []⟩

/-- The claim's reading of "begins with a human-readable warning line
naming the detected threats": the first line of the returned content
mentions every detected threat name. -/
def beginsWithWarningNaming (content : String) (threats : List String) : Bool :=
  threats.all (fun t => containsStr (firstLine content) t)

/-- A web security block that claims the content was scanned and found
valid.  An aborted or failed scan must never produce this. -/
def markedScannedValidWeb : Option WebSecurity → Bool
  | some s => s.scanned && s.is_valid == some true
  | none => false

/-- A read security block that claims the content was scanned and found
valid. -/
def markedScannedValidRead : Option ReadSecurity → Bool
  | some s => s.scanned && s.is_valid == some true
  | none => false

/-! ## Claims -/

/-- A concrete invalid verdict used for the claim-C1 inputs: a secret was
detected by the `Secrets` scanner and masked in the sanitized content. -/
def secretVerdict : ScanResult :=
  { sanitized_content := "[REDACTED]", is_valid := false,
    risk_score := 1, threats_detected := ["Secrets"] }

/-- C1, counterexample: reading the untrusted file `/tmp/evil.txt` whose
scan verdict is invalid (`Secrets` detected, secret masked) returns the
verdict's sanitized content as the whole content — it does NOT begin with
a warning line naming the detected threats: the first line of the returned
content never mentions `Secrets`.  This refutes the claim that the
file-read tool prefixes a human-readable warning line. -/
theorem claim1_counterexample :
    (safeReadExecute true "/tmp/evil.txt" none none
        ⟨.ok "sk-ABC", true, .ok secretVerdict⟩).1.content = some "[REDACTED]" ∧
    beginsWithWarningNaming "[REDACTED]" ["Secrets"] = false := by
  decide

/-- C1, amended: for every untrusted file whose scan verdict is invalid,
the file-read tool returns the verdict's sanitized content as the body
(so a masked secret stays masked, the literal value is not returned),
with a security metadata block recording `scanned: true`,
`is_valid: false`, the verdict's risk score and detected threats — but no
warning line is prefixed to the content (the threat warning goes only to
the logger). -/
theorem claim1_amended (fallback : Bool) (path raw : String)
    (off lim : Option Nat) (r : ScanResult)
    (hpath : isTrustedPath path = false)
    (hinvalid : r.is_valid = false) :
    safeReadExecute fallback path off lim ⟨.ok raw, true, .ok r⟩ =
      ({ success := true, content := some r.sanitized_content, path := path,
         error := none, warning := none,
         security := some { scanned := true, is_valid := some false,
                            risk_score := some r.risk_score,
                            threats_detected := some r.threats_detected,
                            trusted_path := none } },
       { isHealthyCalled := true, scanInputCalled := true }) := by
  simp [safeReadExecute, hpath, hinvalid]

/-- C1 witness: the amended theorem applied to the concrete inputs of the
counterexample. -/
theorem claim1_witness :
    safeReadExecute true "/tmp/evil.txt" none none
        ⟨.ok "sk-ABC", true, .ok secretVerdict⟩ =
      ({ success := true, content := some "[REDACTED]", path := "/tmp/evil.txt",
         error := none, warning := none,
         security := some { scanned := true, is_valid := some false,
                            risk_score := some 1,
                            threats_detected := some ["Secrets"],
                            trusted_path := none } },
       { isHealthyCalled := true, scanInputCalled := true }) :=
  claim1_amended true "/tmp/evil.txt" "sk-ABC" none none secretVerdict
    (by decide) (by decide)

/-- C2: for every web-fetch whose original result parsed with no upstream
error and non-empty text, a healthy service and an invalid scan verdict,
the URL-fetch tool (BLOCK mode) returns a payload with `text = null`,
`blocked = true`, an error message, and a security block with
`is_valid: false` carrying the verdict's risk score and detected threats
— no page content is returned. -/
theorem claim2_block (fallback : Bool) (p : FetchPayload) (r : ScanResult)
    (herr : p.error = none) (htext : jsTruthyText p.text = true)
    (hinvalid : r.is_valid = false) :
    safeWebFetchExecute fallback (.parsed p) true (.ok r) =
      .payload { p with
                   text := none, blocked := some true,
                   error := some "Content blocked: prompt injection detected",
                   security := some { scanned := true, blocked := some true,
                                      is_valid := some false,
                                      risk_score := some r.risk_score,
                                      threats_detected := some r.threats_detected,
                                      warning := none } } := by
  simp [safeWebFetchExecute, herr, htext, hinvalid, jsTruthyErr]

/-- C2 witness: the theorem applied to a concrete blocked fetch. -/
theorem claim2_witness :
    safeWebFetchExecute true
        (.parsed { url := "http://x.example", text := some "IGNORE ALL",
                   error := none, blocked := none, security := none })
        true (.ok { sanitized_content := "IGNORE ALL", is_valid := false,
                    risk_score := 9/10, threats_detected := ["PromptInjection"] }) =
      .payload { url := "http://x.example", text := none,
                 error := some "Content blocked: prompt injection detected",
                 blocked := some true,
                 security := some { scanned := true, blocked := some true,
                                    is_valid := some false,
                                    risk_score := some (9/10),
                                    threats_detected := some ["PromptInjection"],
                                    warning := none } } :=
  claim2_block true
    { url := "http://x.example", text := some "IGNORE ALL",
      error := none, blocked := none, security := none }
    { sanitized_content := "IGNORE ALL", is_valid := false,
      risk_score := 9/10, threats_detected := ["PromptInjection"] }
    rfl (by decide) rfl

/-- C3: for every file path matching a trusted pattern, the file-read
tool returns the file content (identical to the read content when no
offset/limit slicing is requested) annotated `scanned: false,
trusted_path: true`, and consults neither `isHealthy` nor `scanInput` —
for any file content and any state of the scan service. -/
theorem claim3_trusted (fallback : Bool) (path raw : String)
    (off lim : Option Nat) (healthy : Bool) (scan : ScanOutcome)
    (htrusted : isTrustedPath path = true) :
    safeReadExecute fallback path off lim ⟨.ok raw, healthy, scan⟩ =
      ({ success := true, content := some (sliceContent raw off lim),
         path := path, error := none, warning := none,
         security := some { scanned := false, is_valid := none,
                            risk_score := none, threats_detected := none,
                            trusted_path := some true } },
       { isHealthyCalled := false, scanInputCalled := false }) ∧
    sliceContent raw none none = raw := by
  refine ⟨?_, rfl⟩
  simp [safeReadExecute, htrusted]

/-- C3 witness: reading a trusted `IDENTITY.md` with arbitrary secret
content, unhealthy service and a failing scanner. -/
theorem claim3_witness :
    safeReadExecute true "/home/u/IDENTITY.md" none none
        ⟨.ok "sk-ABC", false, .err "down"⟩ =
      ({ success := true, content := some "sk-ABC",
         path := "/home/u/IDENTITY.md", error := none, warning := none,
         security := some { scanned := false, is_valid := none,
                            risk_score := none, threats_detected := none,
                            trusted_path := some true } },
       { isHealthyCalled := false, scanInputCalled := false }) ∧
    sliceContent "sk-ABC" none none = "sk-ABC" :=
  claim3_trusted true "/home/u/IDENTITY.md" "sk-ABC" none none false
    (.err "down") (by decide)

/-- C4: when the service is unhealthy, the file-read tool follows the
`fallbackOnError` flag — with fallback it returns the original unredacted
content plus a warning naming the unavailability; without fallback it
returns an error result whose content field is absent. -/
theorem claim4_unhealthy (path raw : String) (off lim : Option Nat)
    (scan : ScanOutcome) (hpath : isTrustedPath path = false) :
    safeReadExecute true path off lim ⟨.ok raw, false, scan⟩ =
      ({ success := true, content := some (sliceContent raw off lim),
         path := path, error := none,
         warning := some "LLM Guard service unavailable - content not scanned",
         security := none },
       { isHealthyCalled := true, scanInputCalled := false }) ∧
    safeReadExecute false path off lim ⟨.ok raw, false, scan⟩ =
      ({ success := false, content := none, path := path,
         error := some "LLM Guard service unavailable and fallback disabled",
         warning := none, security := none },
       { isHealthyCalled := true, scanInputCalled := false }) ∧
    containsStr "LLM Guard service unavailable - content not scanned"
      "unavailable" = true := by
  refine ⟨?_, ?_, by decide⟩ <;> simp [safeReadExecute, hpath]

/-- C4 witness: the theorem at a concrete untrusted path and content. -/
theorem claim4_witness :
    safeReadExecute true "/tmp/a.txt" none none ⟨.ok "hello", false, .err "x"⟩ =
      ({ success := true, content := some "hello", path := "/tmp/a.txt",
         error := none,
         warning := some "LLM Guard service unavailable - content not scanned",
         security := none },
       { isHealthyCalled := true, scanInputCalled := false }) ∧
    safeReadExecute false "/tmp/a.txt" none none ⟨.ok "hello", false, .err "x"⟩ =
      ({ success := false, content := none, path := "/tmp/a.txt",
         error := some "LLM Guard service unavailable and fallback disabled",
         warning := none, security := none },
       { isHealthyCalled := true, scanInputCalled := false }) ∧
    containsStr "LLM Guard service unavailable - content not scanned"
      "unavailable" = true :=
  claim4_unhealthy "/tmp/a.txt" "hello" none none (.err "x") (by decide)

/-- C5: for every scan attempt that throws (timeout, transport failure or
non-ok status), neither tool ever produces a result marked
scanned-and-valid: the file-read tool returns the original content marked
by a scan-failed warning (fallback enabled) or an error with no content
(fallback disabled), with no security block at all; the URL-fetch tool
returns the payload with `scanned: false` plus a warning (fallback
enabled) or `text = null` with the error (fallback disabled). -/
theorem claim5_scan_failure (path raw msg : String) (off lim : Option Nat)
    (p : FetchPayload) (hpath : isTrustedPath path = false)
    (herr : p.error = none) (htext : jsTruthyText p.text = true)
    (hsec : p.security = none) :
    (safeReadExecute true path off lim ⟨.ok raw, true, .err msg⟩ =
      ({ success := true, content := some (sliceContent raw off lim),
         path := path, error := none,
         warning := some ("LLM Guard scan failed: " ++ msg),
         security := none },
       { isHealthyCalled := true, scanInputCalled := true })) ∧
    (safeReadExecute false path off lim ⟨.ok raw, true, .err msg⟩ =
      ({ success := false, content := none, path := path,
         error := some ("LLM Guard scan failed: " ++ msg),
         warning := none, security := none },
       { isHealthyCalled := true, scanInputCalled := true })) ∧
    (∀ b : Bool, markedScannedValidRead
       (safeReadExecute b path off lim ⟨.ok raw, true, .err msg⟩).1.security
       = false) ∧
    (safeWebFetchExecute true (.parsed p) true (.err msg) =
      .payload { p with
                 security := some { scanned := false, blocked := none,
                                    is_valid := none, risk_score := none,
                                    threats_detected := none,
                                    warning := some msg } }) ∧
    (safeWebFetchExecute false (.parsed p) true (.err msg) =
      .payload { p with error := some msg, text := none }) ∧
    (∀ (b : Bool) (q : FetchPayload),
       safeWebFetchExecute b (.parsed p) true (.err msg) = .payload q →
       markedScannedValidWeb q.security = false) := by
  refine ⟨?_, ?_, ?_, ?_, ?_, ?_⟩
  · simp [safeReadExecute, hpath]
  · simp [safeReadExecute, hpath]
  · intro b
    cases b <;> simp [safeReadExecute, hpath, markedScannedValidRead]
  · simp [safeWebFetchExecute, herr, htext, jsTruthyErr]
  · simp [safeWebFetchExecute, herr, htext, jsTruthyErr]
  · intro b q hq
    cases b <;>
      simp [safeWebFetchExecute, herr, htext, jsTruthyErr] at hq <;>
      simp [← hq, markedScannedValidWeb, hsec]

/-- C5 witness: the scan-failure branches at concrete inputs. -/
theorem claim5_witness :
    (safeReadExecute true "/tmp/a.txt" none none
        ⟨.ok "hello", true, .err "timeout"⟩ =
      ({ success := true, content := some "hello", path := "/tmp/a.txt",
         error := none,
         warning := some ("LLM Guard scan failed: " ++ "timeout"),
         security := none },
       { isHealthyCalled := true, scanInputCalled := true })) ∧
    (safeReadExecute false "/tmp/a.txt" none none
        ⟨.ok "hello", true, .err "timeout"⟩ =
      ({ success := false, content := none, path := "/tmp/a.txt",
         error := some ("LLM Guard scan failed: " ++ "timeout"),
         warning := none, security := none },
       { isHealthyCalled := true, scanInputCalled := true })) :=
  ⟨(claim5_scan_failure "/tmp/a.txt" "hello" "timeout" none none
      { url := "http://x.example", text := some "body", error := none,
        blocked := none, security := none }
      (by decide) rfl (by decide) rfl).1,
   (claim5_scan_failure "/tmp/a.txt" "hello" "timeout" none none
      { url := "http://x.example", text := some "body", error := none,
        blocked := none, security := none }
      (by decide) rfl (by decide) rfl).2.1⟩

/-- C6: the health cache returns the cached boolean for any check within
the TTL of the cached timestamp (so two checks in the window agree even
if the service state — the probe outcome — changed between them); a check
at or past the TTL runs a new probe whose result, healthy or not, is
written to the cache unconditionally; and any probe failure or non-ok
response yields unhealthy. -/
theorem claim6_health_cache (c : HealthCache) (t1 t2 now : Int)
    (p1 p2 probe : ProbeOutcome) (b r : Bool) :
    (c.healthy = some b → now - c.timestamp < healthCacheTTL →
       isHealthy c now probe = (b, c)) ∧
    (healthCacheTTL ≤ now - c.timestamp →
       isHealthy c now probe =
         (probeResult probe,
          { healthy := some (probeResult probe), timestamp := now })) ∧
    probeResult .failure = false ∧
    probeResult (.response false) = false ∧
    (t2 - t1 < healthCacheTTL →
       isHealthy { healthy := some r, timestamp := t1 } t2 p2 =
         (r, { healthy := some r, timestamp := t1 })) ∧
    (healthCacheTTL ≤ t1 - c.timestamp → t2 - t1 < healthCacheTTL →
       (isHealthy (isHealthy c t1 p1).2 t2 p2).1 = (isHealthy c t1 p1).1) := by
  refine ⟨?_, ?_, rfl, rfl, ?_, ?_⟩
  · intro hb hlt
    simp [isHealthy, hb, hlt]
  · intro hge
    have hnlt : ¬ (now - c.timestamp < healthCacheTTL) := not_lt.mpr hge
    simp [isHealthy, hnlt]
  · intro hlt
    simp [isHealthy, hlt]
  · intro hge hlt
    have hnlt : ¬ (t1 - c.timestamp < healthCacheTTL) := not_lt.mpr hge
    simp [isHealthy, hnlt, hlt]

/-- C6 witness: a cached read within the window, then a stale probe whose
failing result is cached. -/
theorem claim6_witness :
    isHealthy { healthy := some true, timestamp := 0 } 10 .failure =
      (true, { healthy := some true, timestamp := 0 }) ∧
    isHealthy { healthy := some true, timestamp := 0 } 40000 .failure =
      (false, { healthy := some false, timestamp := 40000 }) :=
  ⟨(claim6_health_cache { healthy := some true, timestamp := 0 }
      0 0 10 .failure .failure .failure true true).1 rfl (by decide),
   (claim6_health_cache { healthy := some true, timestamp := 0 }
      0 0 40000 .failure .failure .failure true true).2.1 (by decide)⟩

/-- C7: for every web-fetch whose scan verdict — produced by the
spec-modelled aggregator — is valid, the tool returns the payload with
its fetched text untouched (byte-identical, only `blocked := false` and
the security block are added), `blocked: false`, and a security block
with `is_valid: true`, `risk_score: 0` and `threats_detected: []`. -/
theorem claim7_clean (fallback : Bool) (p : FetchPayload) (text : String)
    (subs : List SubVerdict)
    (herr : p.error = none) (htext : jsTruthyText p.text = true)
    (hvalid : (aggregate text subs).is_valid = true) :
    safeWebFetchExecute fallback (.parsed p) true (.ok (aggregate text subs)) =
      .payload { p with
                 blocked := some false,
                 security := some { scanned := true, blocked := some false,
                                    is_valid := some true,
                                    risk_score := some 0,
                                    threats_detected := some [],
                                    warning := none } } := by
  have hall : subs.all (fun s => s.passed) = true := by
    simpa [aggregate] using hvalid
  simp [safeWebFetchExecute, herr, htext, jsTruthyErr, aggregate, hall]

/-- C7 witness: a clean fetch through a one-scanner aggregation. -/
theorem claim7_witness :
    safeWebFetchExecute true
        (.parsed { url := "http://x.example", text := some "plain page",
                   error := none, blocked := none, security := none })
        true
        (.ok (aggregate "plain page"
          [{ scannerName := "Secrets", passed := true, score := 0,
             sanitizedText := none }])) =
      .payload { url := "http://x.example", text := some "plain page",
                 error := none, blocked := some false,
                 security := some { scanned := true, blocked := some false,
                                    is_valid := some true,
                                    risk_score := some 0,
                                    threats_detected := some [],
                                    warning := none } } :=
  claim7_clean true
    { url := "http://x.example", text := some "plain page",
      error := none, blocked := none, security := none }
    "plain page"
    [{ scannerName := "Secrets", passed := true, score := 0,
       sanitizedText := none }]
    rfl (by decide) (by decide)

/-- C8: the three tools compute the same `fallbackOnError` flag from
`config?.fallbackOnError !== false`: every value other than the literal
boolean `false` (absent config, absent field, `null`, numbers, strings,
`true`) makes the flag `true`, so all three tools behave as if
`fallbackOnError` were `true`; only the exact boolean `false` disables
fallback. -/
theorem claim8_fallback_default (config : Option (List (String × JSValue))) :
    (safeReadFallbackFlag config = safeWebFetchFallbackFlag config ∧
     safeWebFetchFallbackFlag config = safeBrowserFallbackFlag config) ∧
    (configFallbackField config ≠ JSValue.bool false →
       safeReadFallbackFlag config = true ∧
       safeWebFetchFallbackFlag config = true ∧
       safeBrowserFallbackFlag config = true ∧
       (∀ path off lim env,
          safeReadExecute (safeReadFallbackFlag config) path off lim env =
            safeReadExecute true path off lim env) ∧
       (∀ o h s,
          safeWebFetchExecute (safeWebFetchFallbackFlag config) o h s =
            safeWebFetchExecute true o h s)) ∧
    (configFallbackField config = JSValue.bool false →
       safeReadFallbackFlag config = false ∧
       safeWebFetchFallbackFlag config = false ∧
       safeBrowserFallbackFlag config = false) := by
  refine ⟨⟨rfl, rfl⟩, ?_, ?_⟩
  · intro h
    have hf : safeReadFallbackFlag config = true := by
      simp [safeReadFallbackFlag, bne_iff_ne]
      exact h
    refine ⟨hf, hf, hf, ?_, ?_⟩
    · intro path off lim env
      rw [show safeReadFallbackFlag config = true from hf]
    · intro o hh s
      rw [show safeWebFetchFallbackFlag config = true from hf]
  · intro h
    simp [safeReadFallbackFlag, safeWebFetchFallbackFlag,
      safeBrowserFallbackFlag, h]

/-- C8 witness: an absent field defaults to permissive fallback; the
literal `false` disables it. -/
theorem claim8_witness :
    safeReadFallbackFlag none = true ∧
    safeBrowserFallbackFlag (some [("fallbackOnError", JSValue.bool false)])
      = false :=
  ⟨((claim8_fallback_default none).2.1 (by decide)).1,
   ((claim8_fallback_default
      (some [("fallbackOnError", JSValue.bool false)])).2.2 (by decide)).2.2⟩

/-- C9: the constructor initializes the health cache with `healthy = null`
and `isHealthy` returns a cached value only when `healthy` is non-null,
so on any instance whose cache still holds `null` — in particular the
very first call — a liveness probe runs regardless of the clock value and
its result is what is returned and cached. -/
theorem claim9_first_probe (c : HealthCache) (now : Int)
    (probe : ProbeOutcome) (h : c.healthy = none) :
    initialCache.healthy = none ∧
    isHealthy c now probe =
      (probeResult probe,
       { healthy := some (probeResult probe), timestamp := now }) := by
  refine ⟨rfl, ?_⟩
  simp [isHealthy, h]

/-- C9 witness: the first call on a fresh client at a clock value well
inside what would be the TTL window still probes. -/
theorem claim9_witness :
    initialCache.healthy = none ∧
    isHealthy initialCache 7 (.response true) =
      (true, { healthy := some true, timestamp := 7 }) :=
  claim9_first_probe initialCache 7 (.response true) rfl

/-- C10: in the file-read tool's slicing, a present-but-zero (falsy)
`limit` behaves as "no limit": the slice runs from the offset line to the
end of the file, exactly as when `limit` is absent; and a zero or absent
`offset` starts the slice at the first line. -/
theorem claim10_slice (content : String) (off l : Nat) (hl : l ≠ 0) :
    (sliceContent content (some off) (some 0) =
       ⟨joinNl ((splitNl content.data).drop off)⟩) ∧
    (sliceContent content (some off) (some 0) =
       sliceContent content (some off) none) ∧
    (sliceContent content (some 0) (some l) =
       ⟨joinNl ((splitNl content.data).take l)⟩) ∧
    (sliceContent content none (some l) =
       sliceContent content (some 0) (some l)) ∧
    (sliceContent content none none = content) := by
  have hdt : ∀ (L : List (List Char)) (n : Nat),
      (L.drop n).take (L.length - n) = L.drop n := by
    intro L n
    rw [← List.length_drop, List.take_length]
  refine ⟨?_, rfl, ?_, rfl, rfl⟩
  · simp only [sliceContent, Option.isSome_some, Bool.true_or, if_true]
    simp [hdt]
  · simp [sliceContent, hl]

/-- C10 witness: `limit: 0` returns the tail from the offset line, not an
empty slice; `offset: 0` starts at the first line. -/
theorem claim10_witness :
    sliceContent "a\nb\nc" (some 1) (some 0) = "b\nc" ∧
    sliceContent "a\nb\nc" (some 0) (some 2) = "a\nb" :=
  ⟨((claim10_slice "a\nb\nc" 1 2 (by decide)).1).trans (by decide),
   ((claim10_slice "a\nb\nc" 1 2 (by decide)).2.2.1).trans (by decide)⟩

end LLMGuard
